import Mathlib

/-!
Verification development for the icon-generator script `generate_icons.py`.

The script is embedded shallowly: the filesystem is an explicit state
(a set of directories plus a map from paths to byte strings), every byte
string is a `List Nat`, Python exceptions become an `Option PyError`
threaded through the run, and the two external image libraries
(vector rasterization, raster encode/decode and container writing) are
abstract structures whose contracts follow the specification.
-/

set_option autoImplicit false

/-- A decoded raster frame: a pixel grid of the given width and height.
The pixel data itself is abstracted as a byte payload. -/
structure Raster where
  width : Nat
  height : Nat
  payload : List Nat
deriving DecidableEq

/-- The filesystem state: a list of existing directories and an
association list from file paths to file contents (bytes). -/
structure FS where
  dirs : List String
  files : List (String × List Nat)
deriving DecidableEq

/-- The errors a run can raise, named after the specification's taxonomy.
`sourceNotFound` models the exception from opening a missing source file,
`rasterizationError` a failed vector rasterization, and
`containerAssemblyError` a failed frame decode during container assembly. -/
inductive PyError where
  | sourceNotFound
  | rasterizationError
  | containerAssemblyError
deriving DecidableEq

/-- Look a path up in an association list of files. -/
def lookupFile : List (String × List Nat) → String → Option (List Nat)
  | [], _ => none
  | e :: rest, p => if e.1 = p then some e.2 else lookupFile rest p

/-- Write a file: replace the entry for the path in place if present,
otherwise append a new entry. -/
def setFile : List (String × List Nat) → String → List Nat → List (String × List Nat)
  | [], p, b => [(p, b)]
  | e :: rest, p, b => if e.1 = p then (p, b) :: rest else e :: setFile rest p b

/-- Read a file's bytes; `none` when the path does not exist. -/
def FS.read (fs : FS) (p : String) : Option (List Nat) :=
  lookupFile fs.files p

/-- Write bytes to a path, truncating/overwriting any existing file there. -/
def FS.write (fs : FS) (p : String) (b : List Nat) : FS :=
  ⟨fs.dirs, setFile fs.files p b⟩

/-- `os.makedirs(d, exist_ok=True)`: create the directory if absent;
idempotent, no error if it already exists. -/
def FS.makedirs (fs : FS) (d : String) : FS :=
  if d ∈ fs.dirs then fs else ⟨fs.dirs ++ [d], fs.files⟩

/-- Modelled from the spec: the vector-rasterization capability
(`cairosvg` is external to the repository). `valid` decides whether a
byte string is well-formed vector markup, and `render` is the
deterministic pixel rendering of a valid source at a requested size. -/
structure SvgLib where
  valid : List Nat → Bool
  render : List Nat → Nat → Nat → List Nat

/-- Modelled from the spec: the raster encode/decode capability
(`PIL` is external to the repository). PNG and ICO are standard
encodings, so decoding an encoded value recovers it exactly. -/
structure RasterLib where
  encodePng : Raster → List Nat
  decodePng : List Nat → Option Raster
  encodeIco : List Raster → List Nat
  decodeIco : List Nat → Option (List Raster)
  png_roundtrip : ∀ r, decodePng (encodePng r) = some r
  ico_roundtrip : ∀ l, decodeIco (encodeIco l) = some l

/-- The raster produced by rendering `svg` at size `w × h`. -/
def raster (S : SvgLib) (svg : List Nat) (w h : Nat) : Raster :=
  ⟨w, h, S.render svg w h⟩

/-- Modelled from the spec: `cairosvg.svg2png(bytestring, output_width,
output_height)` — a pure function of (source bytes, w, h) that yields PNG
bytes of exactly the requested dimensions, and fails (`none`, modelling a
raised exception) if the source bytes are not valid vector markup or a
requested dimension is non-positive. -/
def svg2png (S : SvgLib) (L : RasterLib) (svg : List Nat) (w h : Nat) : Option (List Nat) :=
  if S.valid svg = true ∧ 0 < w ∧ 0 < h then some (L.encodePng (raster S svg w h)) else none

/-- The outcome of running `generate_icons`: the final filesystem, the
lines printed to standard output, and the exception that escaped, if any.
Filesystem effects performed before a raised exception persist. -/
structure RunState where
  fs : FS
  out : List String
  err : Option PyError
deriving DecidableEq

/-- Shallow embedding of `generate_icons()` from `generate_icons.py`:
create `images/`, read `images/logo.svg`, rasterize and write the
192×192, 512×512 and 72×72 PNGs in order, rasterize 16/32/48, decode the
three small PNGs, and write them as the multi-frame `images/favicon.ico`,
finally printing the success message. Any failure aborts the sequence at
that point with the corresponding error, keeping earlier writes. -/
def generate_icons (S : SvgLib) (L : RasterLib) (fs0 : FS) : RunState :=
  let fs := fs0.makedirs "images"
  match fs.read "images/logo.svg" with
  | none => ⟨fs, [], some .sourceNotFound⟩
  | some svg_content =>
    match svg2png S L svg_content 192 192 with
    | none => ⟨fs, [], some .rasterizationError⟩
    | some png192 =>
      let fs := fs.write "images/logo-192x192.png" png192
      match svg2png S L svg_content 512 512 with
      | none => ⟨fs, [], some .rasterizationError⟩
      | some png512 =>
        let fs := fs.write "images/logo-512x512.png" png512
        match svg2png S L svg_content 72 72 with
        | none => ⟨fs, [], some .rasterizationError⟩
        | some png72 =>
          let fs := fs.write "images/badge-72x72.png" png72
          match svg2png S L svg_content 16 16 with
          | none => ⟨fs, [], some .rasterizationError⟩
          | some d16 =>
            match svg2png S L svg_content 32 32 with
            | none => ⟨fs, [], some .rasterizationError⟩
            | some d32 =>
              match svg2png S L svg_content 48 48 with
              | none => ⟨fs, [], some .rasterizationError⟩
              | some d48 =>
                match L.decodePng d16 with
                | none => ⟨fs, [], some .containerAssemblyError⟩
                | some img16 =>
                  match L.decodePng d32 with
                  | none => ⟨fs, [], some .containerAssemblyError⟩
                  | some img32 =>
                    match L.decodePng d48 with
                    | none => ⟨fs, [], some .containerAssemblyError⟩
                    | some img48 =>
                      let fs := fs.write "images/favicon.ico"
                        (L.encodeIco [img16, img32, img48])
                      ⟨fs, ["Icons generated successfully!"], none⟩

/-- The textual rendering of an error, standing for Python's `str(e)`. -/
def errMsg : PyError → String
  | .sourceNotFound => "SourceNotFound"
  | .rasterizationError => "RasterizationError"
  | .containerAssemblyError => "ContainerAssemblyError"

/-- The two static hint lines the entry point prints after any error. -/
def installHint : List String :=
  ["\nIf you see errors about cairosvg, install it with:",
   "pip install cairosvg pillow"]

/-- The outcome of running the script as `__main__`: filesystem,
printed lines, and the process exit code. -/
structure MainResult where
  fs : FS
  out : List String
  exitCode : Nat
deriving DecidableEq

/-- Shallow embedding of the `if __name__ == "__main__":` block: run the
generator, catch any exception once at the top level, print the error
message and the static installation hint, and exit normally (code 0)
either way. -/
def mainScript (S : SvgLib) (L : RasterLib) (fs : FS) : MainResult :=
  let r := generate_icons S L fs
  match r.err with
  | none => ⟨r.fs, r.out, 0⟩
  | some e => ⟨r.fs, r.out ++ ("Error generating icons: " ++ errMsg e) :: installHint, 0⟩

/-- The four output paths the generator writes. -/
def outputPaths : List String :=
  ["images/logo-192x192.png", "images/logo-512x512.png",
   "images/badge-72x72.png", "images/favicon.ico"]

/-- A sample rasterization capability: markup is valid iff nonempty, and
rendering produces a blank pixel payload. -/
def sampleSvg : SvgLib :=
  ⟨fun b => !b.isEmpty, fun _ _ _ => []⟩

/-- A concrete PNG frame encoding: width, height, payload length, payload. -/
def encFrame (r : Raster) : List Nat :=
  r.width :: r.height :: r.payload.length :: r.payload

/-- A concrete ICO encoding: the concatenation of the frame encodings. -/
def encFrames : List Raster → List Nat
  | [] => []
  | r :: t => encFrame r ++ encFrames t

/-- Decoder for `encFrame`. -/
def decPng : List Nat → Option Raster
  | w :: h :: n :: p => if p.length = n then some ⟨w, h, p⟩ else none
  | _ => none

/-- Fuelled decoder for `encFrames`; the fuel bounds the recursion depth. -/
def decFramesAux : Nat → List Nat → Option (List Raster)
  | _, [] => some []
  | f + 1, w :: h :: n :: rest =>
    if n ≤ rest.length then
      (decFramesAux f (rest.drop n)).map (fun t => ⟨w, h, rest.take n⟩ :: t)
    else none
  | _, _ => none

/-- Decoder for `encFrames`, with enough fuel for any input. -/
def decFrames (b : List Nat) : Option (List Raster) :=
  decFramesAux b.length b

theorem take_append_self (p t : List Nat) : (p ++ t).take p.length = p := by
  induction p with
  | nil => rfl
  | cons a q ih => simp [ih]

theorem drop_append_self (p t : List Nat) : (p ++ t).drop p.length = t := by
  induction p with
  | nil => rfl
  | cons a q ih => simp [ih]

theorem decFramesAux_encFrames (l : List Raster) :
    ∀ fuel, (encFrames l).length ≤ fuel → decFramesAux fuel (encFrames l) = some l := by
  induction l with
  | nil => intro fuel _; cases fuel <;> rfl
  | cons r t ih =>
    intro fuel hfuel
    have hlen : (encFrames (r :: t)).length
        = r.payload.length + (encFrames t).length + 3 := by
      simp [encFrames, encFrame]
      try omega
    match fuel with
    | 0 => omega
    | f + 1 =>
      have hrest : (encFrames t).length ≤ f := by omega
      show decFramesAux (f + 1)
          (r.width :: r.height :: r.payload.length :: (r.payload ++ encFrames t))
          = some (r :: t)
      rw [decFramesAux]
      have hle : r.payload.length ≤ (r.payload ++ encFrames t).length := by
        simp
      rw [if_pos hle, take_append_self, drop_append_self, ih f hrest]
      rfl

/-- A concrete raster codec built from the frame encodings above. -/
def theCodec : RasterLib where
  encodePng := encFrame
  decodePng := decPng
  encodeIco := encFrames
  decodeIco := decFrames
  png_roundtrip := by
    intro r
    simp [encFrame, decPng]
  ico_roundtrip := by
    intro l
    exact decFramesAux_encFrames l (encFrames l).length le_rfl

/-- A filesystem holding only a (valid, for `sampleSvg`) source file. -/
def fsWithLogo : FS :=
  ⟨[], [("images/logo.svg", [1])]⟩

/-- The empty filesystem: no directories, no files. -/
def fsEmpty : FS :=
  ⟨[], []⟩

/-- A filesystem whose source file holds malformed markup for `sampleSvg`. -/
def fsBadLogo : FS :=
  ⟨[], [("images/logo.svg", [])]⟩

/-- A filesystem where output paths already hold stale content. -/
def fsPreexisting : FS :=
  ⟨["images"],
   [("images/logo.svg", [1]), ("images/logo-192x192.png", [9, 9]),
    ("images/favicon.ico", [7])]⟩

/-- Canonical final filesystem of a successful run on source `svg`. -/
def successFS (S : SvgLib) (L : RasterLib) (fs : FS) (svg : List Nat) : FS :=
  ((((fs.makedirs "images").write "images/logo-192x192.png"
      (L.encodePng (raster S svg 192 192))).write "images/logo-512x512.png"
      (L.encodePng (raster S svg 512 512))).write "images/badge-72x72.png"
      (L.encodePng (raster S svg 72 72))).write "images/favicon.ico"
      (L.encodeIco [raster S svg 16 16, raster S svg 32 32, raster S svg 48 48])

theorem lookupFile_setFile_self (l : List (String × List Nat)) (p : String) (b : List Nat) :
    lookupFile (setFile l p b) p = some b := by
  induction l with
  | nil => simp [setFile, lookupFile]
  | cons e rest ih =>
    by_cases h : e.1 = p
    · simp [setFile, h, lookupFile]
    · simp [setFile, h, lookupFile, ih]

theorem lookupFile_setFile_ne (l : List (String × List Nat)) (p q : String) (b : List Nat)
    (h : q ≠ p) : lookupFile (setFile l p b) q = lookupFile l q := by
  induction l with
  | nil => simp [setFile, lookupFile, Ne.symm h]
  | cons e rest ih =>
    by_cases he : e.1 = p
    · simp [setFile, he, lookupFile, Ne.symm h]
    · by_cases hq : e.1 = q
      · simp [setFile, he, lookupFile, hq, h]
      · simp [setFile, he, lookupFile, hq, ih]

theorem setFile_lookup_self (l : List (String × List Nat)) (p : String) (b : List Nat)
    (h : lookupFile l p = some b) : setFile l p b = l := by
  induction l with
  | nil => simp [lookupFile] at h
  | cons e rest ih =>
    obtain ⟨k, v⟩ := e
    by_cases he : k = p
    · subst he
      simp [lookupFile] at h
      subst h
      simp [setFile]
    · simp [lookupFile, he] at h
      simp [setFile, he, ih h]

theorem FS.read_write_self (fs : FS) (p : String) (b : List Nat) :
    (fs.write p b).read p = some b :=
  lookupFile_setFile_self fs.files p b

theorem FS.read_write_ne (fs : FS) (p q : String) (b : List Nat) (h : q ≠ p) :
    (fs.write p b).read q = fs.read q :=
  lookupFile_setFile_ne fs.files p q b h

theorem FS.write_read_self (fs : FS) (p : String) (b : List Nat) (h : fs.read p = some b) :
    fs.write p b = fs := by
  obtain ⟨d, f⟩ := fs
  simp only [FS.write, FS.mk.injEq, true_and]
  exact setFile_lookup_self f p b h

theorem FS.read_makedirs (fs : FS) (d p : String) : (fs.makedirs d).read p = fs.read p := by
  unfold FS.makedirs
  split <;> rfl

theorem FS.files_makedirs (fs : FS) (d : String) : (fs.makedirs d).files = fs.files := by
  unfold FS.makedirs
  split <;> rfl

theorem FS.dirs_write (fs : FS) (p : String) (b : List Nat) : (fs.write p b).dirs = fs.dirs :=
  rfl

theorem FS.mem_makedirs_self (fs : FS) (d : String) : d ∈ (fs.makedirs d).dirs := by
  unfold FS.makedirs
  split
  · assumption
  · simp

theorem FS.makedirs_of_mem (fs : FS) (d : String) (h : d ∈ fs.dirs) : fs.makedirs d = fs := by
  unfold FS.makedirs
  rw [if_pos h]

theorem generate_icons_noSource (S : SvgLib) (L : RasterLib) (fs : FS)
    (h : fs.read "images/logo.svg" = none) :
    generate_icons S L fs = ⟨fs.makedirs "images", [], some .sourceNotFound⟩ := by
  simp [generate_icons, FS.read_makedirs, h]

theorem generate_icons_badSvg (S : SvgLib) (L : RasterLib) (fs : FS) (svg : List Nat)
    (h : fs.read "images/logo.svg" = some svg) (hv : S.valid svg = false) :
    generate_icons S L fs = ⟨fs.makedirs "images", [], some .rasterizationError⟩ := by
  simp [generate_icons, FS.read_makedirs, h, svg2png, hv]

theorem generate_icons_success (S : SvgLib) (L : RasterLib) (fs : FS) (svg : List Nat)
    (h : fs.read "images/logo.svg" = some svg) (hv : S.valid svg = true) :
    generate_icons S L fs = ⟨successFS S L fs svg, ["Icons generated successfully!"], none⟩ := by
  simp [generate_icons, FS.read_makedirs, h, svg2png, hv, L.png_roundtrip, successFS, raster]

theorem generate_icons_err_none (S : SvgLib) (L : RasterLib) (fs : FS)
    (h : (generate_icons S L fs).err = none) :
    ∃ svg, fs.read "images/logo.svg" = some svg ∧ S.valid svg = true := by
  cases hr : fs.read "images/logo.svg" with
  | none =>
    rw [generate_icons_noSource S L fs hr] at h
    simp at h
  | some svg =>
    cases hv : S.valid svg with
    | false =>
      rw [generate_icons_badSvg S L fs svg hr hv] at h
      simp at h
    | true => exact ⟨svg, rfl, hv⟩

theorem generate_icons_out_of_err (S : SvgLib) (L : RasterLib) (fs : FS) (e : PyError)
    (h : (generate_icons S L fs).err = some e) :
    (generate_icons S L fs).out = [] := by
  cases hr : fs.read "images/logo.svg" with
  | none => rw [generate_icons_noSource S L fs hr]
  | some svg =>
    cases hv : S.valid svg with
    | false => rw [generate_icons_badSvg S L fs svg hr hv]
    | true =>
      rw [generate_icons_success S L fs svg hr hv] at h
      simp at h

theorem successFS_read_192 (S : SvgLib) (L : RasterLib) (fs : FS) (svg : List Nat) :
    (successFS S L fs svg).read "images/logo-192x192.png"
      = some (L.encodePng (raster S svg 192 192)) := by
  unfold successFS
  rw [FS.read_write_ne _ _ _ _ (by decide), FS.read_write_ne _ _ _ _ (by decide),
    FS.read_write_ne _ _ _ _ (by decide), FS.read_write_self]

theorem successFS_read_512 (S : SvgLib) (L : RasterLib) (fs : FS) (svg : List Nat) :
    (successFS S L fs svg).read "images/logo-512x512.png"
      = some (L.encodePng (raster S svg 512 512)) := by
  unfold successFS
  rw [FS.read_write_ne _ _ _ _ (by decide), FS.read_write_ne _ _ _ _ (by decide),
    FS.read_write_self]

theorem successFS_read_72 (S : SvgLib) (L : RasterLib) (fs : FS) (svg : List Nat) :
    (successFS S L fs svg).read "images/badge-72x72.png"
      = some (L.encodePng (raster S svg 72 72)) := by
  unfold successFS
  rw [FS.read_write_ne _ _ _ _ (by decide), FS.read_write_self]

theorem successFS_read_ico (S : SvgLib) (L : RasterLib) (fs : FS) (svg : List Nat) :
    (successFS S L fs svg).read "images/favicon.ico"
      = some (L.encodeIco [raster S svg 16 16, raster S svg 32 32, raster S svg 48 48]) := by
  unfold successFS
  rw [FS.read_write_self]

theorem successFS_read_not_output (S : SvgLib) (L : RasterLib) (fs : FS) (svg : List Nat)
    (p : String) (hp : p ∉ outputPaths) : (successFS S L fs svg).read p = fs.read p := by
  simp [outputPaths] at hp
  obtain ⟨h1, h2, h3, h4⟩ := hp
  unfold successFS
  rw [FS.read_write_ne _ _ _ _ h4, FS.read_write_ne _ _ _ _ h3,
    FS.read_write_ne _ _ _ _ h2, FS.read_write_ne _ _ _ _ h1, FS.read_makedirs]

theorem successFS_dirs (S : SvgLib) (L : RasterLib) (fs : FS) (svg : List Nat) :
    (successFS S L fs svg).dirs = (fs.makedirs "images").dirs :=
  rfl

theorem successFS_mem_images (S : SvgLib) (L : RasterLib) (fs : FS) (svg : List Nat) :
    "images" ∈ (successFS S L fs svg).dirs := by
  rw [successFS_dirs]
  exact FS.mem_makedirs_self fs "images"

theorem successFS_idem (S : SvgLib) (L : RasterLib) (fs : FS) (svg : List Nat) :
    successFS S L (successFS S L fs svg) svg = successFS S L fs svg := by
  conv_lhs => rw [successFS]
  rw [FS.makedirs_of_mem _ _ (successFS_mem_images S L fs svg),
    FS.write_read_self _ _ _ (successFS_read_192 S L fs svg),
    FS.write_read_self _ _ _ (successFS_read_512 S L fs svg),
    FS.write_read_self _ _ _ (successFS_read_72 S L fs svg),
    FS.write_read_self _ _ _ (successFS_read_ico S L fs svg)]

theorem run_read_192 (S : SvgLib) (L : RasterLib) (fs : FS) (svg : List Nat)
    (h : fs.read "images/logo.svg" = some svg) (hv : S.valid svg = true) :
    (generate_icons S L fs).fs.read "images/logo-192x192.png"
      = some (L.encodePng (raster S svg 192 192)) := by
  rw [generate_icons_success S L fs svg h hv]
  exact successFS_read_192 S L fs svg

theorem run_read_512 (S : SvgLib) (L : RasterLib) (fs : FS) (svg : List Nat)
    (h : fs.read "images/logo.svg" = some svg) (hv : S.valid svg = true) :
    (generate_icons S L fs).fs.read "images/logo-512x512.png"
      = some (L.encodePng (raster S svg 512 512)) := by
  rw [generate_icons_success S L fs svg h hv]
  exact successFS_read_512 S L fs svg

theorem run_read_72 (S : SvgLib) (L : RasterLib) (fs : FS) (svg : List Nat)
    (h : fs.read "images/logo.svg" = some svg) (hv : S.valid svg = true) :
    (generate_icons S L fs).fs.read "images/badge-72x72.png"
      = some (L.encodePng (raster S svg 72 72)) := by
  rw [generate_icons_success S L fs svg h hv]
  exact successFS_read_72 S L fs svg

theorem run_read_ico (S : SvgLib) (L : RasterLib) (fs : FS) (svg : List Nat)
    (h : fs.read "images/logo.svg" = some svg) (hv : S.valid svg = true) :
    (generate_icons S L fs).fs.read "images/favicon.ico"
      = some (L.encodeIco [raster S svg 16 16, raster S svg 32 32, raster S svg 48 48]) := by
  rw [generate_icons_success S L fs svg h hv]
  exact successFS_read_ico S L fs svg

theorem run_read_not_output (S : SvgLib) (L : RasterLib) (fs : FS) (svg : List Nat)
    (p : String) (h : fs.read "images/logo.svg" = some svg) (hv : S.valid svg = true)
    (hp : p ∉ outputPaths) : (generate_icons S L fs).fs.read p = fs.read p := by
  rw [generate_icons_success S L fs svg h hv]
  exact successFS_read_not_output S L fs svg p hp

theorem run_err_none (S : SvgLib) (L : RasterLib) (fs : FS) (svg : List Nat)
    (h : fs.read "images/logo.svg" = some svg) (hv : S.valid svg = true) :
    (generate_icons S L fs).err = none := by
  rw [generate_icons_success S L fs svg h hv]

/-- C1 counterexample: on a filesystem holding only a valid source file,
a successful run leaves five files in total — the source plus four
outputs — so the number of output files produced is four, not five as
the claim states. -/
theorem C1_counterexample :
    (generate_icons sampleSvg theCodec fsWithLogo).err = none ∧
    (generate_icons sampleSvg theCodec fsWithLogo).fs.files.map Prod.fst =
      ["images/logo.svg", "images/logo-192x192.png", "images/logo-512x512.png",
       "images/badge-72x72.png", "images/favicon.ico"] ∧
    fsWithLogo.files.map Prod.fst = ["images/logo.svg"] ∧
    ¬ ((generate_icons sampleSvg theCodec fsWithLogo).fs.files.length
        - fsWithLogo.files.length = 5) := by
  decide

/-- C1 (amended): for a valid vector input, a single run of the generator
succeeds and produces exactly four output files — three standalone raster
images (general app icon, large-format, small badge) and one
multi-resolution icon container — touching no other path. -/
theorem C1_amended_four_outputs (S : SvgLib) (L : RasterLib) (fs : FS) (svg : List Nat)
    (h : fs.read "images/logo.svg" = some svg) (hv : S.valid svg = true) :
    (generate_icons S L fs).err = none ∧
    outputPaths.length = 4 ∧ outputPaths.Nodup ∧
    (∀ p, p ∈ outputPaths → ∃ b, (generate_icons S L fs).fs.read p = some b) ∧
    (∀ p, p ∉ outputPaths → (generate_icons S L fs).fs.read p = fs.read p) := by
  refine ⟨run_err_none S L fs svg h hv, rfl, by decide, ?_, ?_⟩
  · intro p hp
    simp [outputPaths] at hp
    rcases hp with rfl | rfl | rfl | rfl
    · exact ⟨_, run_read_192 S L fs svg h hv⟩
    · exact ⟨_, run_read_512 S L fs svg h hv⟩
    · exact ⟨_, run_read_72 S L fs svg h hv⟩
    · exact ⟨_, run_read_ico S L fs svg h hv⟩
  · intro p hp
    exact run_read_not_output S L fs svg p h hv hp

/-- C1 witness: the amended claim holds at a concrete valid input. -/
theorem C1_witness :
    (generate_icons sampleSvg theCodec fsWithLogo).err = none ∧ outputPaths.length = 4 :=
  ⟨(C1_amended_four_outputs sampleSvg theCodec fsWithLogo [1] (by decide) (by decide)).1,
   (C1_amended_four_outputs sampleSvg theCodec fsWithLogo [1] (by decide) (by decide)).2.1⟩

/-- C2: when the source file `images/logo.svg` does not exist, the run
reports `SourceNotFound` and no file is created or modified. -/
theorem C2_missing_source (S : SvgLib) (L : RasterLib) (fs : FS)
    (h : fs.read "images/logo.svg" = none) :
    (generate_icons S L fs).err = some PyError.sourceNotFound ∧
    (generate_icons S L fs).fs.files = fs.files := by
  rw [generate_icons_noSource S L fs h]
  exact ⟨rfl, FS.files_makedirs fs "images"⟩

/-- C2 witness: the claim holds on the empty filesystem. -/
theorem C2_witness :
    (generate_icons sampleSvg theCodec fsEmpty).err = some PyError.sourceNotFound ∧
    (generate_icons sampleSvg theCodec fsEmpty).fs.files = fsEmpty.files :=
  C2_missing_source sampleSvg theCodec fsEmpty (by decide)

/-- C3: when the source bytes are malformed vector markup, the run
reports `RasterizationError` and no write to any output path occurs
(the file map is untouched). -/
theorem C3_malformed_source (S : SvgLib) (L : RasterLib) (fs : FS) (svg : List Nat)
    (h : fs.read "images/logo.svg" = some svg) (hv : S.valid svg = false) :
    (generate_icons S L fs).err = some PyError.rasterizationError ∧
    (generate_icons S L fs).fs.files = fs.files := by
  rw [generate_icons_badSvg S L fs svg h hv]
  exact ⟨rfl, FS.files_makedirs fs "images"⟩

/-- C3 witness: the claim holds on a filesystem whose source file holds
malformed markup. -/
theorem C3_witness :
    (generate_icons sampleSvg theCodec fsBadLogo).err = some PyError.rasterizationError ∧
    (generate_icons sampleSvg theCodec fsBadLogo).fs.files = fsBadLogo.files :=
  C3_malformed_source sampleSvg theCodec fsBadLogo [] (by decide) (by decide)

/-- C4: every failure inside the generator is caught once at the top
level, converted to a printed message plus the static installation hint,
and suppressed; the process exits normally (code 0) either way. -/
theorem C4_toplevel_catch (S : SvgLib) (L : RasterLib) (fs : FS) :
    (mainScript S L fs).exitCode = 0 ∧
    ∀ e, (generate_icons S L fs).err = some e →
      (mainScript S L fs).out = ("Error generating icons: " ++ errMsg e) :: installHint := by
  constructor
  · cases he : (generate_icons S L fs).err with
    | none => simp [mainScript, he]
    | some e => simp [mainScript, he]
  · intro e he
    simp [mainScript, he, generate_icons_out_of_err S L fs e he]

/-- C4 witness: at a concrete failing input the script exits with code 0
and prints the error line plus the installation hint. -/
theorem C4_witness :
    (mainScript sampleSvg theCodec fsEmpty).exitCode = 0 ∧
    (mainScript sampleSvg theCodec fsEmpty).out =
      ("Error generating icons: " ++ errMsg PyError.sourceNotFound) :: installHint :=
  ⟨(C4_toplevel_catch sampleSvg theCodec fsEmpty).1,
   (C4_toplevel_catch sampleSvg theCodec fsEmpty).2 PyError.sourceNotFound (by decide)⟩

/-- C5: running the generator twice in succession on the same unchanged
source yields byte-identical outputs: a second run from the state left
by a successful run reproduces that state (and the same printed output)
exactly, since rasterization is a pure function of (source bytes, w, h). -/
theorem C5_idempotent (S : SvgLib) (L : RasterLib) (fs : FS)
    (h : (generate_icons S L fs).err = none) :
    generate_icons S L (generate_icons S L fs).fs = generate_icons S L fs := by
  obtain ⟨svg, hr, hv⟩ := generate_icons_err_none S L fs h
  have h1 := generate_icons_success S L fs svg hr hv
  have hr2 : (generate_icons S L fs).fs.read "images/logo.svg" = some svg := by
    rw [h1]
    exact (successFS_read_not_output S L fs svg _ (by decide)).trans hr
  have h2 := generate_icons_success S L (generate_icons S L fs).fs svg hr2 hv
  rw [h2, h1]
  exact congrArg (fun F => RunState.mk F ["Icons generated successfully!"] none)
    (successFS_idem S L fs svg)

/-- C5 witness: idempotence at a concrete valid input. -/
theorem C5_witness :
    generate_icons sampleSvg theCodec (generate_icons sampleSvg theCodec fsWithLogo).fs
      = generate_icons sampleSvg theCodec fsWithLogo :=
  C5_idempotent sampleSvg theCodec fsWithLogo (by decide)

/-- C6: for a valid source the three standalone raster outputs decode to
rasters of exactly the declared dimensions: 192×192 for the app icon,
512×512 for the large format, and 72×72 for the badge. -/
theorem C6_standalone_dims (S : SvgLib) (L : RasterLib) (fs : FS) (svg : List Nat)
    (h : fs.read "images/logo.svg" = some svg) (hv : S.valid svg = true) :
    (((generate_icons S L fs).fs.read "images/logo-192x192.png").bind L.decodePng
        = some (raster S svg 192 192)) ∧
    (raster S svg 192 192).width = 192 ∧ (raster S svg 192 192).height = 192 ∧
    (((generate_icons S L fs).fs.read "images/logo-512x512.png").bind L.decodePng
        = some (raster S svg 512 512)) ∧
    (raster S svg 512 512).width = 512 ∧ (raster S svg 512 512).height = 512 ∧
    (((generate_icons S L fs).fs.read "images/badge-72x72.png").bind L.decodePng
        = some (raster S svg 72 72)) ∧
    (raster S svg 72 72).width = 72 ∧ (raster S svg 72 72).height = 72 := by
  refine ⟨?_, rfl, rfl, ?_, rfl, rfl, ?_, rfl, rfl⟩
  · rw [run_read_192 S L fs svg h hv]
    simp [L.png_roundtrip]
  · rw [run_read_512 S L fs svg h hv]
    simp [L.png_roundtrip]
  · rw [run_read_72 S L fs svg h hv]
    simp [L.png_roundtrip]

/-- C6 witness: the declared dimensions at a concrete valid input. -/
theorem C6_witness :
    (((generate_icons sampleSvg theCodec fsWithLogo).fs.read
        "images/logo-192x192.png").bind theCodec.decodePng
      = some (raster sampleSvg [1] 192 192)) ∧
    (raster sampleSvg [1] 192 192).width = 192 ∧
    (raster sampleSvg [1] 192 192).height = 192 :=
  ⟨(C6_standalone_dims sampleSvg theCodec fsWithLogo [1] (by decide) (by decide)).1,
   (C6_standalone_dims sampleSvg theCodec fsWithLogo [1] (by decide) (by decide)).2.1,
   (C6_standalone_dims sampleSvg theCodec fsWithLogo [1] (by decide) (by decide)).2.2.1⟩

/-- C7: the icon container output decodes to exactly three frames of
widths 16, 32, 48 with matching heights, the directory of dimensions is
recoverable from the container, and the first (smallest, 16×16) frame is
the primary one a single-frame consumer reads. -/
theorem C7_container_frames (S : SvgLib) (L : RasterLib) (fs : FS) (svg : List Nat)
    (h : fs.read "images/logo.svg" = some svg) (hv : S.valid svg = true) :
    (((generate_icons S L fs).fs.read "images/favicon.ico").bind L.decodeIco
        = some [raster S svg 16 16, raster S svg 32 32, raster S svg 48 48]) ∧
    [raster S svg 16 16, raster S svg 32 32, raster S svg 48 48].length = 3 ∧
    ([raster S svg 16 16, raster S svg 32 32, raster S svg 48 48].map Raster.width
        = [16, 32, 48]) ∧
    ([raster S svg 16 16, raster S svg 32 32, raster S svg 48 48].map Raster.height
        = [16, 32, 48]) ∧
    ([raster S svg 16 16, raster S svg 32 32, raster S svg 48 48].head?
        = some (raster S svg 16 16)) := by
  refine ⟨?_, rfl, rfl, rfl, rfl⟩
  rw [run_read_ico S L fs svg h hv]
  simp [L.ico_roundtrip]

/-- C7 witness: the container frames at a concrete valid input. -/
theorem C7_witness :
    (((generate_icons sampleSvg theCodec fsWithLogo).fs.read
        "images/favicon.ico").bind theCodec.decodeIco
      = some [raster sampleSvg [1] 16 16, raster sampleSvg [1] 32 32,
              raster sampleSvg [1] 48 48]) ∧
    ([raster sampleSvg [1] 16 16, raster sampleSvg [1] 32 32,
      raster sampleSvg [1] 48 48].map Raster.width = [16, 32, 48]) :=
  ⟨(C7_container_frames sampleSvg theCodec fsWithLogo [1] (by decide) (by decide)).1,
   (C7_container_frames sampleSvg theCodec fsWithLogo [1] (by decide) (by decide)).2.2.1⟩

/-- C8: for every starting filesystem — in particular one where the
output paths already hold arbitrary content — a successful run leaves at
each output path exactly the raster bytes produced for it, verbatim:
writes truncate/overwrite unconditionally, with no merge or versioning. -/
theorem C8_persist_verbatim (S : SvgLib) (L : RasterLib) (fs : FS) (svg : List Nat)
    (h : fs.read "images/logo.svg" = some svg) (hv : S.valid svg = true) :
    (generate_icons S L fs).fs.read "images/logo-192x192.png"
      = some (L.encodePng (raster S svg 192 192)) ∧
    (generate_icons S L fs).fs.read "images/logo-512x512.png"
      = some (L.encodePng (raster S svg 512 512)) ∧
    (generate_icons S L fs).fs.read "images/badge-72x72.png"
      = some (L.encodePng (raster S svg 72 72)) ∧
    (generate_icons S L fs).fs.read "images/favicon.ico"
      = some (L.encodeIco [raster S svg 16 16, raster S svg 32 32, raster S svg 48 48]) :=
  ⟨run_read_192 S L fs svg h hv, run_read_512 S L fs svg h hv,
   run_read_72 S L fs svg h hv, run_read_ico S L fs svg h hv⟩

/-- C8 witness: at a filesystem where an output path already holds stale
bytes, the run replaces them with exactly the produced raster bytes. -/
theorem C8_witness :
    fsPreexisting.read "images/logo-192x192.png" = some [9, 9] ∧
    (generate_icons sampleSvg theCodec fsPreexisting).fs.read "images/logo-192x192.png"
      = some (theCodec.encodePng (raster sampleSvg [1] 192 192)) :=
  ⟨by decide,
   (C8_persist_verbatim sampleSvg theCodec fsPreexisting [1] (by decide) (by decide)).1⟩

/-- C9: the `images/` directory is created before the source file is
read, so a run failing with a missing source still leaves the directory
in place; apart from that, such a run changes nothing. -/
theorem C9_dir_created_first (S : SvgLib) (L : RasterLib) (fs : FS)
    (h : fs.read "images/logo.svg" = none) :
    (generate_icons S L fs).err = some PyError.sourceNotFound ∧
    "images" ∈ (generate_icons S L fs).fs.dirs ∧
    (generate_icons S L fs).fs.files = fs.files ∧
    (generate_icons S L fs).fs.dirs = (fs.makedirs "images").dirs := by
  rw [generate_icons_noSource S L fs h]
  exact ⟨rfl, FS.mem_makedirs_self fs "images", FS.files_makedirs fs "images", rfl⟩

/-- C9 witness: on the empty filesystem the failing run leaves exactly
the `images` directory and no files. -/
theorem C9_witness :
    (generate_icons sampleSvg theCodec fsEmpty).err = some PyError.sourceNotFound ∧
    "images" ∈ (generate_icons sampleSvg theCodec fsEmpty).fs.dirs ∧
    (generate_icons sampleSvg theCodec fsEmpty).fs.files = fsEmpty.files ∧
    (generate_icons sampleSvg theCodec fsEmpty).fs.dirs = (fsEmpty.makedirs "images").dirs :=
  C9_dir_created_first sampleSvg theCodec fsEmpty (by decide)

/-- C10: the generator itself never prints or suppresses an error — a
failing call propagates the exception to its caller with nothing
printed; only the script entry point converts it into the printed
message and hint. -/
theorem C10_no_catch_in_generator (S : SvgLib) (L : RasterLib) (fs : FS) (e : PyError)
    (h : (generate_icons S L fs).err = some e) :
    (generate_icons S L fs).out = [] ∧
    (mainScript S L fs).out = ("Error generating icons: " ++ errMsg e) :: installHint := by
  refine ⟨generate_icons_out_of_err S L fs e h, ?_⟩
  simp [mainScript, h, generate_icons_out_of_err S L fs e h]

/-- C10 witness: at a concrete failing input the generator prints
nothing while the entry point prints the error and hint. -/
theorem C10_witness :
    (generate_icons sampleSvg theCodec fsEmpty).out = [] ∧
    (mainScript sampleSvg theCodec fsEmpty).out =
      ("Error generating icons: " ++ errMsg PyError.sourceNotFound) :: installHint :=
  C10_no_catch_in_generator sampleSvg theCodec fsEmpty PyError.sourceNotFound (by decide)
